import Mathlib

/-!
Shallow embedding of the financial-metrics core of the dashboard
(`src/app.py`): pandas-style scalars and rows, the helper functions
`safe_first`, `seek_row`, the ratio calculators `calc_kd`, `calc_wacc`,
the effective tax rate, the value-creation spread, the 4-period CAGR,
the sector-rank sort of the portfolio table, and the per-ticker batch
loop of `main`.  Finite numbers are modelled exactly (as rationals, or
as reals where the code takes fractional powers); Python `None` and
float `NaN` are modelled explicitly since the code distinguishes them
(`None` is the unavailable marker, `NaN` is a pandas missing value that
is truthy in Python conditionals).
-/

namespace PVDash

/-- A Python/pandas scalar cell as it flows through the dashboard:
`pynone` is Python `None` (the code's unavailable marker), `nan` is a
float NaN (missing for pandas, truthy for Python), and `num q` is a
finite number, modelled exactly as a rational. -/
inductive Scalar where
  | pynone : Scalar
  | nan : Scalar
  | num : ℚ → Scalar
deriving DecidableEq

/-- A value as handled by `safe_first` (src/app.py lines 45-50): either a
scalar or a pandas `Series` of scalars (a statement-table row). -/
inductive PyObj where
  | scalar : Scalar → PyObj
  | series : List Scalar → PyObj
deriving DecidableEq

/-- `pd.isna`: both Python `None` and float `NaN` count as missing. -/
def Scalar.isNa : Scalar → Bool
  | .pynone => true
  | .nan => true
  | .num _ => false

/-- `Series.dropna`: remove the missing entries of a row. -/
def dropna (l : List Scalar) : List Scalar := l.filter (fun v => ! v.isNa)

/-- `safe_first` (src/app.py lines 45-50).
`None` input is returned as `None`; a `Series` input is `dropna`-ed and
its first element returned if any remain, otherwise the (now empty)
`Series` object itself is returned (the final `else obj` branch: an
empty series has an `iloc` attribute but `obj.empty` holds, so the
series — not `None` — comes back); any other scalar (a number or a bare
`NaN`, which has no `dropna`/`iloc` attribute) passes through
unchanged. -/
def safe_first : PyObj → PyObj
  | .scalar .pynone => .scalar .pynone
  | .series l =>
      match dropna l with
      | [] => .series []
      | v :: _ => .scalar v
  | .scalar v => .scalar v

/-- A statement table as fetched per ticker: the ordered row index
(line-item name to the per-period values of that row) and the list of
period column labels (most recent first).  `rows.lookup` models
`df.loc[k]` for `k in df.index` (row labels of the vendor tables are
unique). -/
structure DataFrame where
  rows : List (String × List Scalar)
  cols : List String
deriving DecidableEq

/-- `seek_row` (src/app.py lines 52-56): try each candidate name in order
against the table's row index and return the first row found; if none is
found, build `pd.Series([0], index=df.columns[:1])`.  That constructor
call succeeds (an all-zero row with a single period) when the table has
at least one column, but raises a pandas `ValueError` (data of length 1
against an index of length 0) when the table has no columns. -/
def seek_row (df : DataFrame) (keys : List String) : Except String (List Scalar) :=
  match keys with
  | [] =>
      if df.cols = [] then
        .error "ValueError: Length of values (1) does not match length of index (0)"
      else .ok [Scalar.num 0]
  | k :: rest =>
      match df.rows.lookup k with
      | some row => .ok row
      | none => seek_row df rest

/-- `calc_kd` (src/app.py lines 68-69): `interest / debt if debt else 0`.
`debt` is `None` or a number (`None` and `0` are falsy, any other number
is truthy).  `interest` is kept numeric: the claims only concern numeric
interest expense, and at the call site `safe_first` never yields `None`
for it. -/
def calc_kd (interest : ℚ) (debt : Option ℚ) : ℚ :=
  match debt with
  | some d => if d ≠ 0 then interest / d else 0
  | none => 0

/-- `calc_wacc` (src/app.py lines 71-73):
`total = (mcap or 0) + (debt or 0)` followed by
`(mcap/total)*ke + (debt/total)*kd*(1-t) if total else None`.
When `total` is falsy (zero) the function returns `None`; when `total`
is nonzero the weighted sum is evaluated on the ORIGINAL `mcap` and
`debt`, so if either of them is still `None` the division raises a
`TypeError` (modelled as `Except.error`); with both numeric it returns
the weighted average. -/
def calc_wacc (mcap debt : Option ℚ) (ke kd t : ℚ) : Except String (Option ℚ) :=
  let total : ℚ := mcap.getD 0 + debt.getD 0
  if total ≠ 0 then
    match mcap, debt with
    | some m, some d => .ok (some ((m / total) * ke + (d / total) * kd * (1 - t)))
    | _, _ => .error "TypeError: unsupported operand type(s) for /: NoneType and float"
  else .ok none

/-- The effective tax rate computation of the metrics builder
(src/app.py line 165): `tax = tax_exp / ebt if ebt else Tc_def`.
`ebt` is `None` or a number (`None` and `0` falsy); `Tc_def` is the
caller-supplied default rate. -/
def effective_tax (tax_exp : ℚ) (ebt : Option ℚ) (Tc_def : ℚ) : ℚ :=
  match ebt with
  | some e => if e ≠ 0 then tax_exp / e else Tc_def
  | none => Tc_def

/-- The value-creation spread (src/app.py line 174):
`(roic - wacc) * 100 if all(v is not None for v in (roic, wacc)) else None`. -/
def creacion_valor (roic wacc : Option ℚ) : Option ℚ :=
  match roic, wacc with
  | some r, some w => some ((r - w) * 100)
  | _, _ => none

/-- The values `cagr4` actually uses from a statement row
(src/app.py line 78): `fin.loc[metric].dropna().iloc[:4]` — the missing
entries are dropped FIRST, and then the first (most recent) four of the
remaining values are taken.  A row is a most-recent-first list of
per-period values, `none` marking a missing (NaN) entry. -/
def cagr4_usable (row : List (Option ℝ)) : List ℝ := (row.filterMap id).take 4

/-- The row-level computation of `cagr4` (src/app.py lines 75-79):
with `v = cagr4_usable row`, return
`(v.iloc[0]/v.iloc[-1])**(1/(len(v)-1)) - 1` when `len(v) > 1` and
`v.iloc[-1]` is truthy (nonzero; NaNs were dropped), else `None`.
Python float `**` is modelled by real `rpow`. -/
noncomputable def cagr4_row (row : List (Option ℝ)) : Option ℝ :=
  match (cagr4_usable row).head?, (cagr4_usable row).getLast? with
  | some vfirst, some vlast =>
      if 2 ≤ (cagr4_usable row).length ∧ vlast ≠ 0 then
        some ((vfirst / vlast) ^ ((1 : ℝ) / (((cagr4_usable row).length : ℝ) - 1)) - 1)
      else none
  | _, _ => none

/-- `cagr4` (src/app.py lines 75-79): `None` when the metric is not in
the table's row index, else the row-level computation. -/
noncomputable def cagr4 (fin : List (String × List (Option ℝ))) (metric : String) : Option ℝ :=
  match fin.lookup metric with
  | some row => cagr4_row row
  | none => none

/-- A company record, projected to the fields the portfolio ordering and
the batch loop depend on (the full dict built at src/app.py lines
200-227 carries many more metric fields, none of which influence
sorting or error handling). -/
structure CompanyMetrics where
  ticker : String
  sector : String
deriving DecidableEq

/-- `SECTOR_RANK` (src/app.py lines 25-38): the fixed sector order. -/
def SECTOR_RANK : List (String × ℕ) :=
  [("Consumer Defensive", 1),
   ("Consumer Cyclical", 2),
   ("Healthcare", 3),
   ("Technology", 4),
   ("Financial Services", 5),
   ("Industrials", 6),
   ("Communication Services", 7),
   ("Energy", 8),
   ("Real Estate", 9),
   ("Utilities", 10),
   ("Basic Materials", 11),
   ("Unknown", 99)]

/-- `df["Sector"].map(SECTOR_RANK).fillna(99)` (src/app.py line 285):
the rank of a sector, defaulting to 99 for any sector not in the
table. -/
def sectorRank (s : String) : ℕ := (SECTOR_RANK.lookup s).getD 99

/-- Lexicographic order on character lists by code point, the order
Python (and hence pandas `sort_values` on string columns) uses to
compare strings. -/
def charListLt : List Char → List Char → Bool
  | [], [] => false
  | [], _ :: _ => true
  | _ :: _, [] => false
  | a :: as, b :: bs => if a < b then true else if b < a then false else charListLt as bs

/-- Python string `<`: code-point lexicographic comparison. -/
def strLt (a b : String) : Bool := charListLt a.data b.data

/-- The three-key comparison realised by
`df.sort_values(["SectorRank", "Sector", "Ticker"])`
(src/app.py lines 285-286): sector rank ascending, then sector name
ascending, then ticker ascending. -/
def keyLe (a b : CompanyMetrics) : Bool :=
  decide (sectorRank a.sector < sectorRank b.sector) ||
    (decide (sectorRank a.sector = sectorRank b.sector) &&
      (strLt a.sector b.sector ||
        (decide (a.sector = b.sector) &&
          (strLt a.ticker b.ticker || decide (a.ticker = b.ticker)))))

/-- The portfolio sort (src/app.py lines 285-286): the records ordered
by `keyLe`. -/
def sortPortfolio (rs : List CompanyMetrics) : List CompanyMetrics := rs.mergeSort keyLe

/-- The try/except wrapper of `obtener_datos_financieros`
(src/app.py lines 138-230).  `fetch` abstracts the out-of-scope
yfinance retrieval together with the body of the builder: it either
yields a record or fails with an exception message.  The Python
function catches EVERY exception of its body, displays
`st.error("Error obteniendo datos para {tk}: {e}")` and returns `None`;
the first component is the returned value, the second the list of
`st.error` messages displayed (ticker, message). -/
def obtenerDatosFinancieros (fetch : String → Except String CompanyMetrics)
    (tk : String) : Option CompanyMetrics × List (String × String) :=
  match fetch tk with
  | .ok d => (some d, [])
  | .error e => (none, [(tk, "Error obteniendo datos para " ++ tk ++ ": " ++ e)])

/-- Result of the per-ticker loop of `main` (src/app.py lines 256-271):
the accumulated `datos` list, the `errs` list filled by the loop's
`except` clause, and the stream of `st.error` messages displayed. -/
structure BatchResult where
  datos : List CompanyMetrics
  errs : List (String × String)
  displayed : List (String × String)
deriving DecidableEq

/-- The per-ticker loop of `main` (src/app.py lines 262-271): for each
ticker, call `obtener_datos_financieros` and append the record to
`datos` when one is returned.  The loop body's `except` clause would
append `(tk, str(e))` to `errs`, but `obtener_datos_financieros`
catches every exception of the build internally (returning `None`), so
no exception reaches the loop's handler and `errs` is never extended. -/
def mainLoop (fetch : String → Except String CompanyMetrics) :
    List String → BatchResult
  | [] => ⟨[], [], []⟩
  | tk :: rest =>
      let step := obtenerDatosFinancieros fetch tk
      let r := mainLoop fetch rest
      match step.1 with
      | some d => ⟨d :: r.datos, r.errs, step.2 ++ r.displayed⟩
      | none => ⟨r.datos, r.errs, step.2 ++ r.displayed⟩

/-- A concrete fetch oracle for exercising the batch loop: the build
fails with message "boom" for ticker "BBB" and succeeds for every other
ticker (producing a record carrying that ticker, as the builder does at
src/app.py line 201). -/
def fetchCE : String → Except String CompanyMetrics :=
  fun t => if t = "BBB" then .error "boom" else .ok ⟨t, "Unknown"⟩

/- ===================== Theorems ===================== -/

/-- C1: the value-creation spread is available iff both ROIC and WACC
are available (not `None`), and when available it equals
`(ROIC - WACC) * 100` exactly. -/
theorem c1_creacion_valor_spec (roic wacc : Option ℚ) :
    ((creacion_valor roic wacc).isSome ↔ roic.isSome ∧ wacc.isSome) ∧
    (∀ r w, roic = some r → wacc = some w →
      creacion_valor roic wacc = some ((r - w) * 100)) := by
  constructor
  · cases roic <;> cases wacc <;> simp [creacion_valor]
  · rintro r w rfl rfl
    rfl

/-- Witness for C1 at ROIC = 3/20 and WACC = 1/10. -/
theorem c1_creacion_valor_spec_witness :
    creacion_valor (some (3/20)) (some (1/10)) = some ((3/20 - 1/10) * 100) :=
  (c1_creacion_valor_spec (some (3/20)) (some (1/10))).2 _ _ rfl rfl

/-- C4: the cost-of-debt calculator returns 0 when total debt is zero
(or missing) — never `None` and never a division error — and returns
`interest / debt` when the debt is a nonzero number. -/
theorem c4_calc_kd_spec (interest : ℚ) (debt : Option ℚ) :
    (debt = some 0 ∨ debt = none → calc_kd interest debt = 0) ∧
    (∀ d, debt = some d → d ≠ 0 → calc_kd interest debt = interest / d) := by
  constructor
  · rintro (rfl | rfl) <;> simp [calc_kd]
  · rintro d rfl hd
    simp [calc_kd, hd]

/-- Witness for C4 at interest = 10, debt = 0 and debt = 4. -/
theorem c4_calc_kd_spec_witness :
    calc_kd 10 (some 0) = 0 ∧ calc_kd 10 (some 4) = 10 / 4 :=
  ⟨(c4_calc_kd_spec 10 (some 0)).1 (Or.inl rfl),
   (c4_calc_kd_spec 10 (some 4)).2 4 rfl (by norm_num)⟩

/-- C6: the effective tax rate equals `tax_exp / ebt` when EBT is a
nonzero number, and equals the caller-supplied default (not any
computed quotient) when EBT is zero. -/
theorem c6_effective_tax_spec (tax_exp Tc_def : ℚ) (ebt : Option ℚ) :
    (∀ e, ebt = some e → e ≠ 0 → effective_tax tax_exp ebt Tc_def = tax_exp / e) ∧
    (ebt = some 0 → effective_tax tax_exp ebt Tc_def = Tc_def) := by
  constructor
  · rintro e rfl he
    simp [effective_tax, he]
  · rintro rfl
    simp [effective_tax]

/-- Witness for C6 at tax_exp = 21, default = 21/100, EBT = 100 and 0. -/
theorem c6_effective_tax_spec_witness :
    effective_tax 21 (some 100) (21/100) = 21 / 100 ∧
    effective_tax 21 (some 0) (21/100) = 21/100 :=
  ⟨(c6_effective_tax_spec 21 (21/100) (some 100)).1 100 rfl (by norm_num),
   (c6_effective_tax_spec 21 (21/100) (some 0)).2 rfl⟩

/-- C10: the WACC calculator is not total over number-or-missing
inputs: with exactly one of market cap and debt equal to `None` and the
other nonzero (total capital nonzero), the division `None / total`
raises a TypeError instead of returning a number or `None`. -/
theorem c10_calc_wacc_not_total :
    calc_wacc none (some 1) (1/10) (1/20) (21/100) =
      .error "TypeError: unsupported operand type(s) for /: NoneType and float" ∧
    calc_wacc (some 1) none (1/10) (1/20) (21/100) =
      .error "TypeError: unsupported operand type(s) for /: NoneType and float" := by
  constructor <;> norm_num [calc_wacc]

/-- C5 counterexample: market equity missing (`None`) and debt = 1, so
total capital is nonzero and the claim's "otherwise" case promises the
weighted formula; the code instead raises a TypeError when it divides
`None` by the total. -/
theorem c5_calc_wacc_counterexample :
    calc_wacc none (some 1) 1 1 0 =
      .error "TypeError: unsupported operand type(s) for /: NoneType and float" := by
  norm_num [calc_wacc]

/-- C5 as amended: WACC is `None` whenever the total capital
`(mcap or 0) + (debt or 0)` is zero (in particular when both inputs are
zero or missing); when both inputs are numbers with nonzero total it
returns the weighted average `(E/(E+D))*Ke + (D/(E+D))*Kd*(1-t)`; and
when exactly one input is missing while the other is nonzero it raises
a TypeError instead of returning a value. -/
theorem c5_calc_wacc_spec (mcap debt : Option ℚ) (ke kd t : ℚ) :
    (mcap.getD 0 + debt.getD 0 = 0 → calc_wacc mcap debt ke kd t = .ok none) ∧
    (∀ m d, mcap = some m → debt = some d → m + d ≠ 0 →
      calc_wacc mcap debt ke kd t =
        .ok (some ((m / (m + d)) * ke + (d / (m + d)) * kd * (1 - t)))) ∧
    (∀ d, mcap = none → debt = some d → d ≠ 0 →
      calc_wacc mcap debt ke kd t =
        .error "TypeError: unsupported operand type(s) for /: NoneType and float") ∧
    (∀ m, mcap = some m → debt = none → m ≠ 0 →
      calc_wacc mcap debt ke kd t =
        .error "TypeError: unsupported operand type(s) for /: NoneType and float") := by
  refine ⟨?_, ?_, ?_, ?_⟩
  · intro h
    simp [calc_wacc, h]
  · rintro m d rfl rfl h
    simp [calc_wacc, h]
  · rintro d rfl rfl h
    simp [calc_wacc, h]
  · rintro m rfl rfl h
    simp [calc_wacc, h]

/-- Witness for C5: both inputs zero gives `None`; equity 2 and debt 3
give the weighted formula. -/
theorem c5_calc_wacc_spec_witness :
    calc_wacc (some 0) (some 0) 1 1 0 = .ok none ∧
    calc_wacc (some 2) (some 3) 1 1 0 =
      .ok (some (((2:ℚ) / (2 + 3)) * 1 + ((3:ℚ) / (2 + 3)) * 1 * (1 - 0))) :=
  ⟨(c5_calc_wacc_spec (some 0) (some 0) 1 1 0).1 (by norm_num),
   (c5_calc_wacc_spec (some 2) (some 3) 1 1 0).2.1 2 3 rfl rfl (by norm_num)⟩

/-- C7 counterexample: a row whose only entry is NaN has no non-missing
entry, yet `safe_first` returns the empty series object — not the
`None` unavailable marker; and a bare scalar NaN passes through as NaN
rather than being mapped to `None`. -/
theorem c7_safe_first_counterexample :
    safe_first (.series [Scalar.nan]) = .series [] ∧
    safe_first (.series [Scalar.nan]) ≠ .scalar .pynone ∧
    safe_first (.scalar .nan) = .scalar .nan ∧
    safe_first (.scalar .nan) ≠ .scalar .pynone := by
  refine ⟨rfl, by decide, rfl, by decide⟩

/-- C7 as amended: on a row, `safe_first` drops the missing entries and
returns the first (most recent) remaining value; when no non-missing
entry remains it returns the empty series itself (not the `None`
marker); a scalar input passes through unchanged (`None` stays `None`,
NaN stays NaN, numbers stay themselves). -/
theorem c7_safe_first_spec :
    (∀ l v rest, dropna l = v :: rest → safe_first (.series l) = .scalar v) ∧
    (∀ l, dropna l = [] → safe_first (.series l) = .series []) ∧
    (∀ s, safe_first (.scalar s) = .scalar s) := by
  refine ⟨?_, ?_, ?_⟩
  · intro l v rest h
    simp [safe_first, h]
  · intro l h
    simp [safe_first, h]
  · intro s
    cases s <;> rfl

/-- Witness for C7: a row [NaN, 5, 7] yields 5 (first non-missing); an
all-missing row [None, NaN] yields the empty series. -/
theorem c7_safe_first_spec_witness :
    safe_first (.series [Scalar.nan, Scalar.num 5, Scalar.num 7]) = .scalar (Scalar.num 5) ∧
    safe_first (.series [Scalar.pynone, Scalar.nan]) = .series [] :=
  ⟨c7_safe_first_spec.1 [Scalar.nan, Scalar.num 5, Scalar.num 7] (Scalar.num 5)
      [Scalar.num 7] (by decide),
   c7_safe_first_spec.2.1 [Scalar.pynone, Scalar.nan] (by decide)⟩

/-- C8 counterexample: an empty statement table (no rows and no period
columns — the fetch interface allows "possibly empty" tables) with
candidate list ["A"]: no candidate matches, and constructing the
fallback `pd.Series([0], index=df.columns[:1])` raises a ValueError
(data of length 1 against an index of length 0), contradicting "never
raises an error". -/
theorem c8_seek_row_counterexample :
    seek_row ⟨[], []⟩ ["A"] =
      .error "ValueError: Length of values (1) does not match length of index (0)" := by
  rfl

/-- C8 as amended: `seek_row` returns the first row whose name is in
the table's row index; when no candidate matches it returns the
synthetic all-zero single-period row provided the table has at least
one period column, and raises a ValueError when the table has no
columns; with aliases ["A", "B"] against a table containing only "B"
it returns B's row. -/
theorem c8_seek_row_spec (df : DataFrame) :
    (∀ keys, (∀ k, k ∈ keys → df.rows.lookup k = none) → df.cols ≠ [] →
      seek_row df keys = .ok [Scalar.num 0]) ∧
    (∀ keys, (∀ k, k ∈ keys → df.rows.lookup k = none) → df.cols = [] →
      seek_row df keys =
        .error "ValueError: Length of values (1) does not match length of index (0)") ∧
    (∀ ks₁ k ks₂ row, (∀ k', k' ∈ ks₁ → df.rows.lookup k' = none) →
      df.rows.lookup k = some row →
      seek_row df (ks₁ ++ k :: ks₂) = .ok row) ∧
    seek_row ⟨[("B", [Scalar.num 7, Scalar.num 8])], ["p1", "p2"]⟩ ["A", "B"] =
      .ok [Scalar.num 7, Scalar.num 8] := by
  refine ⟨?_, ?_, ?_, rfl⟩
  · intro keys hnone hcols
    induction keys with
    | nil => simp [seek_row, hcols]
    | cons k rest ih =>
        have hk : df.rows.lookup k = none := hnone k (by simp)
        simp only [seek_row, hk]
        exact ih (fun k' hk' => hnone k' (by simp [hk']))
  · intro keys hnone hcols
    induction keys with
    | nil => simp [seek_row, hcols]
    | cons k rest ih =>
        have hk : df.rows.lookup k = none := hnone k (by simp)
        simp only [seek_row, hk]
        exact ih (fun k' hk' => hnone k' (by simp [hk']))
  · intro ks₁ k ks₂ row hnone hk
    induction ks₁ with
    | nil => simp [seek_row, hk]
    | cons k' rest ih =>
        have hk' : df.rows.lookup k' = none := hnone k' (by simp)
        simp only [List.cons_append, seek_row, hk']
        exact ih (fun k'' hk'' => hnone k'' (by simp [hk'']))

/-- Witness for C8: a table with one row "B" and one column; aliases
["A", "B"] hit B's row, and a fully unmatched alias list falls back to
the zero row. -/
theorem c8_seek_row_spec_witness :
    seek_row ⟨[("B", [Scalar.num 7])], ["p1"]⟩ ["X", "B"] = .ok [Scalar.num 7] ∧
    seek_row ⟨[("B", [Scalar.num 7])], ["p1"]⟩ ["X", "Y"] = .ok [Scalar.num 0] :=
  ⟨(c8_seek_row_spec ⟨[("B", [Scalar.num 7])], ["p1"]⟩).2.2.1 ["X"] "B" [] [Scalar.num 7]
      (by decide) (by decide),
   (c8_seek_row_spec ⟨[("B", [Scalar.num 7])], ["p1"]⟩).1 ["X", "Y"] (by decide) (by decide)⟩

/-- C2 counterexample: in the row
`[NaN, NaN, NaN, 100, 80]` (most recent first) only one non-missing
value lies among the 4 most recent periods, so the claim demands
`unavailable`; the code drops the NaNs BEFORE slicing to 4, uses the
two values from the older periods and returns `100/80 - 1 = 0.25`. -/
theorem c2_cagr4_counterexample :
    ((([Option.none, Option.none, Option.none, some 100, some (80:ℝ)]).take 4).filterMap id).length = 1 ∧
    cagr4_row [Option.none, Option.none, Option.none, some 100, some (80:ℝ)] = some (1/4) := by
  constructor
  · rfl
  · have h : cagr4_usable [Option.none, Option.none, Option.none, some 100, some (80:ℝ)] =
        [100, 80] := rfl
    rw [cagr4_row, h]
    norm_num

/-- C2 as amended: the calculator first drops missing entries and then
considers the up-to-4 most recent of the remaining values (which may
come from periods older than the 4 most recent): it is `unavailable`
when fewer than 2 such values exist or when the earliest value
considered is zero, and otherwise returns
`(first/last)^(1/(n-1)) - 1` with `first` the most recent non-missing
value, `last` the earliest considered, and `n` their count; with
exactly the two usable values [100, 80] it returns 0.25. -/
theorem c2_cagr4_row_spec (row : List (Option ℝ)) :
    ((cagr4_usable row).length < 2 → cagr4_row row = none) ∧
    ((cagr4_usable row).getLast? = some 0 → cagr4_row row = none) ∧
    (∀ vfirst vlast, (cagr4_usable row).head? = some vfirst →
      (cagr4_usable row).getLast? = some vlast →
      2 ≤ (cagr4_usable row).length → vlast ≠ 0 →
      cagr4_row row = some ((vfirst / vlast) ^
        ((1 : ℝ) / (((cagr4_usable row).length : ℝ) - 1)) - 1)) ∧
    cagr4_row [some 100, some (80:ℝ)] = some (1/4) := by
  refine ⟨?_, ?_, ?_, ?_⟩
  · intro h
    rcases hl : cagr4_usable row with _ | ⟨x, _ | ⟨y, ys⟩⟩
    · simp [cagr4_row, hl]
    · simp [cagr4_row, hl]
    · rw [hl] at h
      simp at h
      omega
  · intro h
    rcases hl : cagr4_usable row with _ | ⟨x, xs⟩
    · simp [cagr4_row, hl]
    · rw [hl] at h
      simp [cagr4_row, hl, h]
  · intro vfirst vlast hf hg hlen hne
    simp [cagr4_row, hf, hg, hlen, hne]
  · have h : cagr4_usable [some 100, some (80:ℝ)] = [100, 80] := rfl
    rw [cagr4_row, h]
    norm_num

/-- Witness for C2 applied to the two-value row [100, 80]: the formula
case fires with n = 2 and yields `(100/80)^(1/(2-1)) - 1`. -/
theorem c2_cagr4_row_spec_witness :
    cagr4_row [some 100, some (80:ℝ)] =
      some (((100:ℝ) / 80) ^ ((1 : ℝ) / (((2:ℕ) : ℝ) - 1)) - 1) :=
  (c2_cagr4_row_spec [some 100, some (80:ℝ)]).2.2.1 100 80 rfl rfl
    (Nat.le_refl 2) (by norm_num)

/-- Helper for C3: behaviour of the batch loop when the build of ticker
`tk` fails — no record, no `errs` entry (the builder's internal catch
keeps any exception from reaching the loop's handler), one `st.error`
message per occurrence of `tk`, and every successfully built ticker
still lands in `datos`. -/
theorem mainLoop_error_aux (fetch : String → Except String CompanyMetrics)
    (tk : String) (e : String)
    (hfail : fetch tk = .error e)
    (htic : ∀ t r, fetch t = .ok r → r.ticker = t) :
    ∀ ts : List String,
      (∀ m, m ∈ (mainLoop fetch ts).datos → m.ticker ≠ tk) ∧
      (mainLoop fetch ts).errs = [] ∧
      ((mainLoop fetch ts).displayed.filter (fun p => decide (p.1 = tk))).length
        = ts.count tk ∧
      (∀ t r, t ∈ ts → fetch t = .ok r → r ∈ (mainLoop fetch ts).datos) := by
  intro ts
  induction ts with
  | nil => simp [mainLoop]
  | cons t rest ih =>
    obtain ⟨ih1, ih2, ih3, ih4⟩ := ih
    have hne_of_ok : ∀ r, fetch t = .ok r → t ≠ tk := by
      intro r hr htk
      rw [htk, hfail] at hr
      exact Except.noConfusion hr
    cases hft : fetch t with
    | ok d =>
        have htd : d.ticker = t := htic t d hft
        have httk : t ≠ tk := hne_of_ok d hft
        refine ⟨?_, ?_, ?_, ?_⟩
        · intro m hm
          simp only [mainLoop, obtenerDatosFinancieros, hft] at hm
          rcases List.mem_cons.mp hm with rfl | hm'
          · rw [htd]; exact httk
          · exact ih1 m hm'
        · simp only [mainLoop, obtenerDatosFinancieros, hft]
          exact ih2
        · simp only [mainLoop, obtenerDatosFinancieros, hft, List.nil_append,
            List.count_cons]
          rw [ih3]
          simp [httk]
        · intro t' r ht' hr
          simp only [mainLoop, obtenerDatosFinancieros, hft]
          rcases List.mem_cons.mp ht' with rfl | ht''
          · rw [hft] at hr
            cases hr
            exact List.mem_cons_self _ _
          · exact List.mem_cons_of_mem _ (ih4 t' r ht'' hr)
    | error e' =>
        refine ⟨?_, ?_, ?_, ?_⟩
        · intro m hm
          simp only [mainLoop, obtenerDatosFinancieros, hft] at hm
          exact ih1 m hm
        · simp only [mainLoop, obtenerDatosFinancieros, hft]
          exact ih2
        · simp only [mainLoop, obtenerDatosFinancieros, hft, List.count_cons,
            List.singleton_append, List.filter_cons]
          by_cases htk : t = tk
          · subst htk
            simp [ih3]
          · simp [htk, ih3]
        · intro t' r ht' hr
          simp only [mainLoop, obtenerDatosFinancieros, hft]
          rcases List.mem_cons.mp ht' with rfl | ht''
          · rw [hft] at hr
            exact Except.noConfusion hr
          · exact ih4 t' r ht'' hr

/-- C3 as amended: when the per-ticker build of `tk` fails with an
unexpected error, the batch produces zero CompanyMetrics entries for
`tk`; the recorded error list `errs` receives NO entry (the builder
catches every exception internally, so the loop's except clause never
fires) while exactly one `st.error` message (ticker and description)
is displayed per occurrence of `tk`; `tk` never appears in the sorted
portfolio; and every other ticker of the batch is still processed. -/
theorem c3_mainLoop_spec (fetch : String → Except String CompanyMetrics)
    (ts : List String) (tk : String) (e : String)
    (hfail : fetch tk = .error e)
    (htic : ∀ t r, fetch t = .ok r → r.ticker = t) :
    (∀ m, m ∈ (mainLoop fetch ts).datos → m.ticker ≠ tk) ∧
    (mainLoop fetch ts).errs = [] ∧
    ((mainLoop fetch ts).displayed.filter (fun p => decide (p.1 = tk))).length
      = ts.count tk ∧
    (∀ m, m ∈ sortPortfolio (mainLoop fetch ts).datos → m.ticker ≠ tk) ∧
    (∀ t r, t ∈ ts → fetch t = .ok r → r ∈ (mainLoop fetch ts).datos) := by
  obtain ⟨h1, h2, h3, h4⟩ := mainLoop_error_aux fetch tk e hfail htic ts
  refine ⟨h1, h2, h3, ?_, h4⟩
  intro m hm
  exact h1 m ((List.mergeSort_perm (mainLoop fetch ts).datos keyLe).mem_iff.mp hm)

/-- C3 counterexample: with the concrete oracle `fetchCE` the build of
"BBB" fails, yet the recorded error list stays empty — the claim's
"exactly one fetch-error entry in the recorded error list" is false;
the failure surfaces only as a displayed `st.error` message, and the
other tickers are still processed. -/
theorem c3_mainLoop_counterexample :
    fetchCE "BBB" = .error "boom" ∧
    (mainLoop fetchCE ["AAA", "BBB", "CCC"]).errs = [] ∧
    (mainLoop fetchCE ["AAA", "BBB", "CCC"]).datos =
      [⟨"AAA", "Unknown"⟩, ⟨"CCC", "Unknown"⟩] ∧
    (mainLoop fetchCE ["AAA", "BBB", "CCC"]).displayed =
      [("BBB", "Error obteniendo datos para BBB: boom")] := by
  refine ⟨rfl, rfl, rfl, rfl⟩

/-- Witness for C3 with the oracle `fetchCE` and batch
["AAA", "BBB", "CCC"]: `errs` is empty and exactly one message about
"BBB" is displayed. -/
theorem c3_mainLoop_spec_witness :
    (mainLoop fetchCE ["AAA", "BBB", "CCC"]).errs = [] ∧
    ((mainLoop fetchCE ["AAA", "BBB", "CCC"]).displayed.filter
        (fun p => decide (p.1 = "BBB"))).length = ["AAA", "BBB", "CCC"].count "BBB" := by
  have htic : ∀ t r, fetchCE t = .ok r → r.ticker = t := by
    intro t r h
    unfold fetchCE at h
    split at h
    · exact Except.noConfusion h
    · cases h
      rfl
  exact ⟨(c3_mainLoop_spec fetchCE ["AAA", "BBB", "CCC"] "BBB" "boom" rfl htic).2.1,
    (c3_mainLoop_spec fetchCE ["AAA", "BBB", "CCC"] "BBB" "boom" rfl htic).2.2.1⟩

/-- Code-point lexicographic comparison of character lists is
transitive. -/
theorem charListLt_trans (a : List Char) : ∀ b c : List Char,
    charListLt a b = true → charListLt b c = true → charListLt a c = true := by
  induction a with
  | nil =>
    intro b c hab hbc
    cases b with
    | nil => simp [charListLt] at hab
    | cons y ys =>
      cases c with
      | nil => simp [charListLt] at hbc
      | cons z zs => simp [charListLt]
  | cons x xs ih =>
    intro b c hab hbc
    cases b with
    | nil => simp [charListLt] at hab
    | cons y ys =>
      cases c with
      | nil => simp [charListLt] at hbc
      | cons z zs =>
        simp only [charListLt] at hab hbc ⊢
        rcases lt_trichotomy x y with h | rfl | h
        · rcases lt_trichotomy y z with h2 | rfl | h2
          · simp [lt_trans h h2]
          · simp [h]
          · simp [h2, h2.asymm] at hbc
        · rw [if_neg (lt_irrefl x), if_neg (lt_irrefl x)] at hab
          rcases lt_trichotomy x z with h2 | rfl | h2
          · simp [h2]
          · rw [if_neg (lt_irrefl x), if_neg (lt_irrefl x)] at hbc ⊢
            exact ih ys zs hab hbc
          · simp [h2, h2.asymm] at hbc
        · simp [h, h.asymm] at hab

/-- Code-point lexicographic comparison of character lists is total
up to equality. -/
theorem charListLt_total (a : List Char) : ∀ b : List Char,
    charListLt a b = true ∨ charListLt b a = true ∨ a = b := by
  induction a with
  | nil =>
    intro b
    cases b with
    | nil => exact Or.inr (Or.inr rfl)
    | cons y ys => exact Or.inl (by simp [charListLt])
  | cons x xs ih =>
    intro b
    cases b with
    | nil => exact Or.inr (Or.inl (by simp [charListLt]))
    | cons y ys =>
      rcases lt_trichotomy x y with h | rfl | h
      · exact Or.inl (by simp [charListLt, h])
      · rcases ih ys with h2 | h2 | rfl
        · exact Or.inl (by simp [charListLt, lt_irrefl, h2])
        · exact Or.inr (Or.inl (by simp [charListLt, lt_irrefl, h2]))
        · exact Or.inr (Or.inr rfl)
      · exact Or.inr (Or.inl (by simp [charListLt, h, h.asymm]))

/-- Python string comparison is transitive. -/
theorem strLt_trans (a b c : String) :
    strLt a b = true → strLt b c = true → strLt a c = true :=
  charListLt_trans a.data b.data c.data

/-- Python string comparison is total up to equality. -/
theorem strLt_total (a b : String) : strLt a b = true ∨ strLt b a = true ∨ a = b := by
  rcases charListLt_total a.data b.data with h | h | h
  · exact Or.inl h
  · exact Or.inr (Or.inl h)
  · refine Or.inr (Or.inr ?_)
    cases a
    cases b
    exact congrArg String.mk h

/-- The three-key portfolio comparison is transitive. -/
theorem keyLe_trans (a b c : CompanyMetrics) :
    keyLe a b = true → keyLe b c = true → keyLe a c = true := by
  simp only [keyLe, Bool.or_eq_true, Bool.and_eq_true, decide_eq_true_eq]
  rintro (hab | ⟨hab, hab2⟩) (hbc | ⟨hbc, hbc2⟩)
  · exact Or.inl (lt_trans hab hbc)
  · exact Or.inl (by omega)
  · exact Or.inl (by omega)
  · refine Or.inr ⟨by omega, ?_⟩
    rcases hab2 with h2 | ⟨h2, h3⟩ <;> rcases hbc2 with g2 | ⟨g2, g3⟩
    · exact Or.inl (strLt_trans _ _ _ h2 g2)
    · exact Or.inl (by rw [← g2]; exact h2)
    · exact Or.inl (by rw [h2]; exact g2)
    · refine Or.inr ⟨h2.trans g2, ?_⟩
      rcases h3 with h4 | h4 <;> rcases g3 with g4 | g4
      · exact Or.inl (strLt_trans _ _ _ h4 g4)
      · exact Or.inl (by rw [← g4]; exact h4)
      · exact Or.inl (by rw [h4]; exact g4)
      · exact Or.inr (h4.trans g4)

/-- The three-key portfolio comparison is total. -/
theorem keyLe_total (a b : CompanyMetrics) : (keyLe a b || keyLe b a) = true := by
  simp only [keyLe, Bool.or_eq_true, Bool.and_eq_true, decide_eq_true_eq]
  rcases Nat.lt_trichotomy (sectorRank a.sector) (sectorRank b.sector) with h | h | h
  · exact Or.inl (Or.inl h)
  · rcases strLt_total a.sector b.sector with h2 | h2 | h2
    · exact Or.inl (Or.inr ⟨h, Or.inl h2⟩)
    · exact Or.inr (Or.inr ⟨h.symm, Or.inl h2⟩)
    · rcases strLt_total a.ticker b.ticker with h3 | h3 | h3
      · exact Or.inl (Or.inr ⟨h, Or.inr ⟨h2, Or.inl h3⟩⟩)
      · exact Or.inr (Or.inr ⟨h.symm, Or.inr ⟨h2.symm, Or.inl h3⟩⟩)
      · exact Or.inl (Or.inr ⟨h, Or.inr ⟨h2, Or.inr h3⟩⟩)
  · exact Or.inr (Or.inl h)

unseal List.merge List.mergeSort in
/-- C9: the portfolio sort is a permutation of the input records,
ordered by (sector rank, sector name, ticker) ascending; the fixed
table ranks Technology 4, Energy 8 and Unknown 99; any sector missing
from the table ranks above every known sector; and on concrete records
with sectors Technology, Energy and Unknown, Technology sorts before
Energy before Unknown with ties broken by ticker alphabetically. -/
theorem c9_sortPortfolio_spec (rs : List CompanyMetrics) :
    (sortPortfolio rs).Perm rs ∧
    List.Pairwise (fun a b => keyLe a b = true) (sortPortfolio rs) ∧
    (sectorRank "Technology" = 4 ∧ sectorRank "Energy" = 8 ∧ sectorRank "Unknown" = 99) ∧
    (∀ s, SECTOR_RANK.lookup s = none →
      ∀ p, p ∈ SECTOR_RANK → p.1 ≠ "Unknown" → p.2 < sectorRank s) ∧
    sortPortfolio
        [⟨"MSFT", "Technology"⟩, ⟨"B", "Unknown"⟩, ⟨"XOM", "Energy"⟩,
         ⟨"A", "Unknown"⟩, ⟨"AAPL", "Technology"⟩] =
      [⟨"AAPL", "Technology"⟩, ⟨"MSFT", "Technology"⟩, ⟨"XOM", "Energy"⟩,
       ⟨"A", "Unknown"⟩, ⟨"B", "Unknown"⟩] := by
  refine ⟨List.mergeSort_perm rs keyLe,
    List.sorted_mergeSort keyLe_trans keyLe_total rs, ⟨rfl, rfl, rfl⟩, ?_, ?_⟩
  · intro s hs p hp hne
    have h99 : sectorRank s = 99 := by simp [sectorRank, hs]
    rw [h99]
    fin_cases hp <;> simp_all
  · decide

/-- Witness for C9: the sector "Zoology" is not in the rank table, so
its rank exceeds the rank of the known sector "Consumer Defensive". -/
theorem c9_sortPortfolio_spec_witness : (1 : ℕ) < sectorRank "Zoology" :=
  (c9_sortPortfolio_spec []).2.2.2.1 "Zoology" (by decide)
    ("Consumer Defensive", 1) (by decide) (by decide)

end PVDash
